import Mathlib

/-
Verification of the query-composition and result-shaping pipeline of
`dftimewolf/lib/collectors/timesketch.py` (class
`TimesketchSearchEventCollector`) against its natural-language
specification.

The Python module is shallowly embedded: `SetUp` (sketch-identifier
resolution, joint-timestamp validation, output-format validation, then the
network step `_GetSketch` and the remaining attribute assignments),
`_GetSearchResults` (query construction from the configured attributes:
date-range chip, label chips, index scope), and `_OutputSearchResults` /
`Process` (internal-column dropping, serialization, artifact storage,
empty-result short-circuit).  External collaborators (the Timesketch API
client, the orchestration framework) are modelled only through the
interface the source uses, as the spec describes them.
-/

namespace Timesketch

/-! ## Python string and integer primitives used by the source -/

/-- Python whitespace characters relevant to `str.strip()` and `int()`
argument stripping (ASCII subset). -/
def isPySpace (c : Char) : Bool :=
  c = ' ' || c = '\t' || c = '\n' || c = '\r' || c = '\x0b' || c = '\x0c'

/-- Python `str.strip()`: removes leading and trailing whitespace. -/
def pyStrip (s : String) : String :=
  String.mk (((s.toList.dropWhile isPySpace).reverse.dropWhile isPySpace).reverse)

/-- Decimal value of a digit character. -/
def digitVal (c : Char) : Nat := c.toNat - 48

/-- Digit-run parser for Python `int()`: after a first digit, further
characters are digits, with single underscores allowed only between
digits.  Returns `none` exactly when Python `int()` raises `ValueError`
on this digit run. -/
def pyDigitsAux : Nat → List Char → Option Nat
  | acc, [] => some acc
  | acc, c :: rest =>
    if c.isDigit then pyDigitsAux (acc * 10 + digitVal c) rest
    else if c = '_' then
      match rest with
      | [] => none
      | d :: rest2 =>
        if d.isDigit then pyDigitsAux (acc * 10 + digitVal d) rest2 else none
    else none

/-- Parse a non-empty decimal digit run (Python `int()` body after sign). -/
def pyParseDigits : List Char → Option Nat
  | [] => none
  | c :: rest => if c.isDigit then pyDigitsAux (digitVal c) rest else none

/-- Python `int(s)` for a string argument: strips whitespace, accepts an
optional sign followed by a non-empty digit run (single underscores
between digits allowed); every other string raises `ValueError`,
modelled as `none`. -/
def pyIntOfString (s : String) : Option Int :=
  let cs := ((s.toList.dropWhile isPySpace).reverse.dropWhile isPySpace).reverse
  match cs with
  | '+' :: rest => (pyParseDigits rest).map Int.ofNat
  | '-' :: rest => (pyParseDigits rest).map (fun n => -(Int.ofNat n))
  | rest => (pyParseDigits rest).map Int.ofNat

/-- Python truthiness of an optional string (`str | None`): `None` and the
empty string are falsy. -/
def optStrTruthy : Option String → Bool
  | none => false
  | some s => !(s = "")

/-! ## Datetimes and the fixed timestamp encoding -/

/-- A Python `datetime.datetime` value (naive fields; a `datetime` object
is always truthy in Python). -/
structure Datetime where
  year : Nat
  month : Nat
  day : Nat
  hour : Nat
  minute : Nat
  second : Nat
  microsecond : Nat
deriving DecidableEq, Repr

/-- Field bounds guaranteed by the Python `datetime` type
(`MINYEAR = 1`, `MAXYEAR = 9999`, microseconds below one million). -/
def Datetime.validFields (d : Datetime) : Prop :=
  1 ≤ d.year ∧ d.year ≤ 9999 ∧ 1 ≤ d.month ∧ d.month ≤ 12 ∧
  1 ≤ d.day ∧ d.day ≤ 31 ∧ d.hour ≤ 23 ∧ d.minute ≤ 59 ∧
  d.second ≤ 59 ∧ d.microsecond ≤ 999999

instance (d : Datetime) : Decidable d.validFields := by
  unfold Datetime.validFields
  infer_instance

/-- Python datetime comparison: lexicographic on the fields. -/
def dtLe (a b : Datetime) : Bool :=
  if a.year < b.year then true else if b.year < a.year then false
  else if a.month < b.month then true else if b.month < a.month then false
  else if a.day < b.day then true else if b.day < a.day then false
  else if a.hour < b.hour then true else if b.hour < a.hour then false
  else if a.minute < b.minute then true else if b.minute < a.minute then false
  else if a.second < b.second then true else if b.second < a.second then false
  else decide (a.microsecond ≤ b.microsecond)

/-- Decimal rendering of a natural number (the digit string `%d` prints). -/
def natDecimal (n : Nat) : String :=
  Nat.repr n

/-- Zero-pad a string on the left to width `w` (Python `%0wd`). -/
def padZero (w : Nat) (s : String) : String :=
  if s.length < w then String.mk (List.replicate (w - s.length) '0') ++ s else s

/-- Fixed-width zero-padded decimal field of a `strftime` directive. -/
def pad (w : Nat) (n : Nat) : String := padZero w (natDecimal n)

/-- `datetime.strftime('%Y-%m-%dT%H:%M:%S.%f')`: the fixed
fractional-second timestamp encoding used for both bounds of the date
range chip (timesketch.py lines 205-208). -/
def strftimeFixed (dt : Datetime) : String :=
  pad 4 dt.year ++ "-" ++ pad 2 dt.month ++ "-" ++ pad 2 dt.day ++ "T" ++
  pad 2 dt.hour ++ ":" ++ pad 2 dt.minute ++ ":" ++ pad 2 dt.second ++ "." ++
  pad 6 dt.microsecond

/-! ## SetUp: validation and configuration (timesketch.py lines 65-145) -/

/-- The valid output formats (timesketch.py line 19,
`frozenset(['csv', 'json', 'jsonl', 'pandas'])`; membership is what the
source tests, so a list models the frozenset). -/
def VALID_OUTPUT_FORMATS : List String := ["csv", "json", "jsonl", "pandas"]

/-- The arguments of `TimesketchSearchEventCollector.SetUp` that take part
in validation and configuration (credential arguments are consumed only
by the external `_GetSketch` collaborator and are not modelled). -/
structure SetUpArgs where
  sketch_id : Option String := none
  query_string : String := "*"
  start_datetime : Option Datetime := none
  end_datetime : Option Datetime := none
  indices : Option String := none
  labels : Option String := none
  output_format : String := "pandas"
  return_fields : String := "*"
  search_name : Option String := none
  search_description : Option String := none
  include_internal_columns : Bool := false
deriving Repr

/-- The attributes of the collector as they stand after a completed
`SetUp`, consumed by `_GetSearchResults` and `_OutputSearchResults`. -/
structure ModuleConfig where
  sketch_id : Int
  query_string : String
  start_datetime : Option Datetime
  end_datetime : Option Datetime
  return_fields : String
  output_format : String
  include_internal_columns : Bool
  labels : List String
  indices : List Int
  search_name : String
  search_description : String
deriving DecidableEq, Repr

/-- The distinct fatal `ModuleError` messages `SetUp` can raise before the
network step (the output-format message interpolates the frozenset in
nondeterministic iteration order, so messages are modelled as tags). -/
inductive FatalMsg where
  | sketchIdNotFound
  | datetimeMissing
  | outputFormatInvalid
deriving DecidableEq, Repr

/-- Outcome of `SetUp`.  `preNetworkFatal` and `preNetworkValueError`
abort before `_GetSketch` (line 127), the first network interaction:
`preNetworkFatal` models a `ModuleError(..., critical=True)` raised by
the validation code, `preNetworkValueError` an unhandled Python
`ValueError` escaping from `int(sketch_id)` (line 116).  `proceed`
means every pre-network step passed and `_GetSketch` is invoked;
its payload is the configuration produced by the assignments after the
network step (lines 128-145), with `none` modelling an unhandled
`ValueError` from `int(index)` while parsing `indices` (line 139). -/
inductive SetUpResult where
  | preNetworkFatal (msg : FatalMsg)
  | preNetworkValueError
  | proceed (afterNetwork : Option ModuleConfig)
deriving DecidableEq, Repr

/-- Parse every comma-separated entry with Python `int()`
(line 139, `[int(index) for index in indices.split(',')]`);
`none` when any entry raises `ValueError`. -/
def pyMapInt : List String → Option (List Int)
  | [] => some []
  | s :: rest =>
    match pyIntOfString s, pyMapInt rest with
    | some n, some ns => some (n :: ns)
    | _, _ => none

/-- The label assignment of lines 135-136: when the `labels` argument is
truthy, split on commas and strip each entry; otherwise the attribute
keeps its `[]` default. -/
def parseLabels : Option String → List String
  | some s => if s = "" then [] else (s.splitOn ",").map pyStrip
  | none => []

/-- The index assignment of lines 138-139: when the `indices` argument is
truthy, parse each comma-separated entry with `int()` (which may raise,
modelled as `none`); otherwise the attribute keeps its `[]` default. -/
def parseIndices : Option String → Option (List Int)
  | some s => if s = "" then some [] else pyMapInt (s.splitOn ",")
  | none => some []

/-- The attribute assignments of `SetUp` after the `_GetSketch` call
(timesketch.py lines 128-145). -/
def afterNetworkAssignments (sid : Int) (a : SetUpArgs) : Option ModuleConfig :=
  match parseIndices a.indices with
  | none => none
  | some idxs =>
    some { sketch_id := sid
           query_string := a.query_string
           start_datetime := a.start_datetime
           end_datetime := a.end_datetime
           return_fields := a.return_fields
           output_format := a.output_format
           include_internal_columns := a.include_internal_columns
           labels := parseLabels a.labels
           indices := idxs
           search_name := (a.search_name.getD "")
           search_description := (a.search_description.getD "") }

/-- The sketch-identifier resolution of `SetUp` (timesketch.py lines
108-116): a falsy `sketch_id` argument falls back to the ticket
attributes, a truthy one goes through `int(sketch_id)`, whose
`ValueError` on a non-numeric string is unhandled.  `ticketSketchId` is
the result of the upstream fallback
`timesketch_utils.GetSketchIDFromAttributes(self.GetContainers(...))`
(lines 109-110).  Modelled from the spec: that helper is repository code
outside src/; per the spec it searches upstream ticket attributes for a
sketch identifier, and the source guards its result with Python
truthiness (`if not self.sketch_id`), so `0` models "not found". -/
def sketchIdStep (ticketSketchId : Nat) (a : SetUpArgs) :
    Except SetUpResult Int :=
  if optStrTruthy a.sketch_id = false then
    if ticketSketchId = 0 then
      Except.error (SetUpResult.preNetworkFatal FatalMsg.sketchIdNotFound)
    else Except.ok (Int.ofNat ticketSketchId)
  else
    match pyIntOfString (a.sketch_id.getD "") with
    | none => Except.error SetUpResult.preNetworkValueError
    | some n => Except.ok n

/-- `TimesketchSearchEventCollector.SetUp` (timesketch.py lines 65-145):
the sketch-identifier step, then the joint-presence check on the
timestamps (lines 118-120), then the output-format check (lines
122-125); only past all three does the run reach `_GetSketch` and the
subsequent assignments. -/
def SetUp (ticketSketchId : Nat) (a : SetUpArgs) : SetUpResult :=
  match sketchIdStep ticketSketchId a with
  | Except.error r => r
  | Except.ok sid =>
    if a.start_datetime.isNone || a.end_datetime.isNone then
      SetUpResult.preNetworkFatal FatalMsg.datetimeMissing
    else if a.output_format ∉ VALID_OUTPUT_FORMATS then
      SetUpResult.preNetworkFatal FatalMsg.outputFormatInvalid
    else
      SetUpResult.proceed (afterNetworkAssignments sid a)

/-! ## Query construction: `_GetSearchResults` (timesketch.py lines 191-220) -/

/-- The three shapes a `search.LabelChip` is put into by the source:
`use_star_label()`, `use_comment_label()`, or a literal label assignment
(timesketch.py lines 212-218). -/
inductive LabelKind where
  | star
  | comment
  | literal (label : String)
deriving DecidableEq, Repr

/-- A filter chip attached to the search object: either the
`search.DateRangeChip` carrying its two encoded bounds, or a
`search.LabelChip`. -/
inductive Chip where
  | dateRange (startTime endTime : String)
  | label (kind : LabelKind)
deriving DecidableEq, Repr

/-- The composite query object as `_GetSearchResults` configures it
before execution: query string, return fields, optional explicit index
scope (`none` spans the whole sketch), and the attached chips in
attachment order. -/
structure SearchQuery where
  query_string : String
  return_fields : String
  indices : Option (List Int)
  chips : List Chip
deriving DecidableEq, Repr

/-- The label-chip dispatch of lines 212-218: `"star"` and `"comment"`
select the dedicated built-in filters, every other value becomes a
literal label assignment. -/
def labelChipOf (label : String) : Chip :=
  if label = "star" then Chip.label LabelKind.star
  else if label = "comment" then Chip.label LabelKind.comment
  else Chip.label (LabelKind.literal label)

/-- The query-construction part of
`TimesketchSearchEventCollector._GetSearchResults`
(timesketch.py lines 197-219): everything up to the executing call
`search_obj.to_pandas()`. -/
def buildSearchQuery (cfg : ModuleConfig) : SearchQuery :=
  { query_string := cfg.query_string
    return_fields := cfg.return_fields
    indices := if cfg.indices.isEmpty then none else some cfg.indices
    chips :=
      (match cfg.start_datetime, cfg.end_datetime with
       | some s, some e =>
         [Chip.dateRange (strftimeFixed s) (strftimeFixed e)]
       | _, _ => []) ++
      cfg.labels.map labelChipOf }

/-- The date-range chips of a query, with their bounds. -/
def dateRangeChips (q : SearchQuery) : List (String × String) :=
  q.chips.filterMap (fun c =>
    match c with
    | Chip.dateRange s e => some (s, e)
    | Chip.label _ => none)

/-- The label chips of a query, in attachment order. -/
def labelChips (q : SearchQuery) : List LabelKind :=
  q.chips.filterMap (fun c =>
    match c with
    | Chip.dateRange _ _ => none
    | Chip.label k => some k)

/-- Lexicographic order on character lists, the order in which encoded
timestamps of the fixed equal-width format compare. -/
def charListLe : List Char → List Char → Bool
  | [], _ => true
  | _ :: _, [] => false
  | a :: as, b :: bs =>
    if a < b then true else if b < a then false else charListLe as bs

/-- Lexicographic order on strings. -/
def strLe (a b : String) : Bool := charListLe a.data b.data

/-- `charListLe` is reflexive. -/
theorem charListLe_refl (l : List Char) : charListLe l l = true := by
  induction l with
  | nil => rfl
  | cons a as ih => simp [charListLe, ih]

/-- `strLe` is reflexive. -/
theorem strLe_refl (s : String) : strLe s s = true :=
  charListLe_refl s.data

/-- Modelled from the spec: the semantics of the external
`search.DateRangeChip` primitive of timesketch_api_client (not part of
src/): an event timestamp matches the chip exactly when it lies between
the two bounds, inclusive of both. -/
def dateRangeMatches (startTime endTime t : String) : Bool :=
  strLe startTime t && strLe t endTime

/-- Modelled from the spec: chips attached to a search via
`search_obj.add_chip` compose conjunctively — an event matches the
search exactly when it matches every attached chip. -/
def chipsMatch (m : Chip → Bool) (chips : List Chip) : Bool :=
  chips.all m

/-! ## Result shaping: `_OutputSearchResults` and `Process`
(timesketch.py lines 222-266) -/

/-- A pandas `DataFrame` as the source manipulates it: an ordered column
list and rows of cell values aligned with the columns (the rendering of
individual cell values is abstracted as strings). -/
structure DataFrame where
  columns : List String
  rows : List (List String)
deriving DecidableEq, Repr

/-- Pandas `DataFrame.empty`: true when either axis has length zero. -/
def DataFrame.empty (df : DataFrame) : Bool :=
  df.rows.isEmpty || df.columns.isEmpty

/-- The five backend-internal OpenSearch columns dropped by
`_OutputSearchResults` (timesketch.py line 231). -/
def internalColumns : List String :=
  ["__ts_timeline_id", "_id", "_index", "_source", "_type"]

/-- Pandas `DataFrame.drop(columns=cols, errors="ignore")`: removes every
listed column that is present, keeps the others in order, and is not an
error when a listed column is absent. -/
def dropColumns (df : DataFrame) (cols : List String) : DataFrame :=
  { columns := df.columns.filter (fun c => !(cols.contains c))
    rows := df.rows.map (fun r =>
      ((df.columns.zip r).filter (fun p => !(cols.contains p.1))).map Prod.snd) }

/-- The shaping step of `_OutputSearchResults` (lines 228-232): the
internal columns are dropped unless their inclusion was requested. -/
def shapedTable (cfg : ModuleConfig) (df : DataFrame) : DataFrame :=
  if !cfg.include_internal_columns then dropColumns df internalColumns else df

/-- CSV field quoting as pandas `to_csv` performs it (QUOTE_MINIMAL):
a field containing a comma, quote or line break is quoted, with inner
quotes doubled. -/
def csvEscapeCell (s : String) : String :=
  if s.toList.any (fun c => c = ',' || c = '"' || c = '\n' || c = '\r') then
    "\"" ++ String.mk (s.toList.foldr
      (fun c acc => if c = '"' then '"' :: '"' :: acc else c :: acc) []) ++ "\""
  else s

/-- `DataFrame.to_csv(output_file, index=False)` (line 248): header row
then data rows, comma-separated, newline-terminated, no index column. -/
def toCsv (df : DataFrame) : String :=
  String.intercalate "\n"
    (((df.columns.map csvEscapeCell) :: df.rows.map (fun r => r.map csvEscapeCell)).map
      (String.intercalate ",")) ++ "\n"

/-- JSON string-character escaping as pandas `to_json` performs it
(quotes, backslashes, control characters and forward slashes). -/
def jsonEscapeChar (c : Char) : String :=
  if c = '"' then "\\\"" else if c = '\\' then "\\\\"
  else if c = '\n' then "\\n" else if c = '\r' then "\\r"
  else if c = '\t' then "\\t" else if c = '/' then "\\/"
  else String.singleton c

/-- A JSON string literal. -/
def jsonString (s : String) : String :=
  "\"" ++ String.join (s.toList.map jsonEscapeChar) ++ "\""

/-- One record object of `to_json(orient="records")`: the row's cells
keyed by column name. -/
def jsonRecord (cols : List String) (row : List String) : String :=
  "\x7b" ++ String.intercalate ","
    ((cols.zip row).map (fun p => jsonString p.1 ++ ":" ++ jsonString p.2)) ++ "\x7d"

/-- `DataFrame.to_json(output_file, orient="records", lines=False)`
(line 250): one JSON array of record objects. -/
def toJsonRecords (df : DataFrame) : String :=
  "[" ++ String.intercalate "," (df.rows.map (jsonRecord df.columns)) ++ "]"

/-- `DataFrame.to_json(output_file, orient="records", lines=True)`
(line 252): newline-delimited record objects. -/
def toJsonLines (df : DataFrame) : String :=
  String.intercalate "\n" (df.rows.map (jsonRecord df.columns))

/-- The artifact a run stores: either the in-memory dataframe container
(format `pandas`) or a file container; the file's on-disk path is
produced by the uniqueness-guaranteeing temporary-file facility and is
excluded from the model, the serialized byte content and the
name-derived suffix are kept. -/
inductive OutputArtifact where
  | dataFrameContainer (name description : String) (df : DataFrame)
  | fileContainer (name description : String) (content : String) (suffix : String)
deriving DecidableEq, Repr

/-- Outcome of `_OutputSearchResults`: a stored container, or the
write-time fatal `ModuleError('Unexpected output format',
critical=True)` of line 254. -/
inductive OutputResult where
  | stored (a : OutputArtifact)
  | unexpectedFormatFatal
deriving DecidableEq, Repr

/-- `TimesketchSearchEventCollector._OutputSearchResults`
(timesketch.py lines 222-258). -/
def outputSearchResults (cfg : ModuleConfig) (df : DataFrame) : OutputResult :=
  let shaped := shapedTable cfg df
  if cfg.output_format = "pandas" then
    OutputResult.stored (OutputArtifact.dataFrameContainer
      cfg.search_name cfg.search_description shaped)
  else if cfg.output_format = "csv" then
    OutputResult.stored (OutputArtifact.fileContainer
      cfg.search_name cfg.search_description (toCsv shaped) "csv")
  else if cfg.output_format = "json" then
    OutputResult.stored (OutputArtifact.fileContainer
      cfg.search_name cfg.search_description (toJsonRecords shaped) "json")
  else if cfg.output_format = "jsonl" then
    OutputResult.stored (OutputArtifact.fileContainer
      cfg.search_name cfg.search_description (toJsonLines shaped) "jsonl")
  else
    OutputResult.unexpectedFormatFatal

/-- The serialized file content produced by `_OutputSearchResults`, when
a file artifact is produced (`none` for the in-memory pandas route and
for the fatal branch). -/
def serializedContent (cfg : ModuleConfig) (df : DataFrame) : Option String :=
  match outputSearchResults cfg df with
  | OutputResult.stored (OutputArtifact.fileContainer _ _ content _) => some content
  | _ => none

/-- Outcome of `Process`: successful termination with the stored
artifacts, or a fatal abort. -/
inductive ProcessResult where
  | success (artifacts : List OutputArtifact)
  | fatal
deriving DecidableEq, Repr

/-- `TimesketchSearchEventCollector.Process` (timesketch.py lines
260-266), given the result table returned by query execution: empty
tables short-circuit to success with no artifact, otherwise the result
is shaped and output. -/
def Process (cfg : ModuleConfig) (results : DataFrame) : ProcessResult :=
  if results.empty then ProcessResult.success []
  else
    match outputSearchResults cfg results with
    | OutputResult.stored a => ProcessResult.success [a]
    | OutputResult.unexpectedFormatFatal => ProcessResult.fatal

/-! ## Concrete sample values used by closed theorems -/

/-- A sample datetime, `2023-01-01T00:00:00`. -/
def dtJan1 : Datetime := ⟨2023, 1, 1, 0, 0, 0, 0⟩

/-- A sample datetime one day later, `2023-01-02T00:00:00`. -/
def dtJan2 : Datetime := ⟨2023, 1, 2, 0, 0, 0, 0⟩

/-! ## C1: joint-presence validation of the timestamps -/

/-- Claim C1, counterexample: a `SetUp` call with a valid explicit sketch
identifier, a valid output format, and BOTH timestamps absent is rejected
with the fatal `'Both the start and end datetime must be set.'` error — so
setup does not accept the both-absent configuration the claim says it
accepts (timesketch.py lines 118-120 fire whenever either timestamp is
`None`, including both). -/
theorem C1_counterexample :
    SetUp 1 { sketch_id := some "42", start_datetime := none,
              end_datetime := none, output_format := "csv" } =
      SetUpResult.preNetworkFatal FatalMsg.datetimeMissing := by
  rfl

/-- Claim C1 (amended): whenever sketch-identifier resolution succeeds,
every configuration in which at least one of the two timestamps is absent
— including the configuration in which both are absent — is rejected by
`SetUp` with the fatal joint-presence error, before the network step and
hence before any query is constructed. -/
theorem C1_setup_rejects_any_missing_datetime (tid : Nat) (a : SetUpArgs)
    (hticket : optStrTruthy a.sketch_id = false → tid ≠ 0)
    (hparse : ∀ s, a.sketch_id = some s → ¬(s = "") →
      (pyIntOfString s).isSome = true)
    (h : a.start_datetime = none ∨ a.end_datetime = none) :
    SetUp tid a = SetUpResult.preNetworkFatal FatalMsg.datetimeMissing := by
  have hmiss : (a.start_datetime.isNone || a.end_datetime.isNone) = true := by
    rcases h with h | h <;> simp [h]
  unfold SetUp
  cases hsk : a.sketch_id with
  | none =>
    have ht := hticket (by simp [optStrTruthy, hsk])
    simp [SetUp, sketchIdStep, optStrTruthy, hsk, ht, hmiss]
  | some s =>
    by_cases hse : s = ""
    · have ht := hticket (by simp [SetUp, sketchIdStep, optStrTruthy, hsk, hse])
      simp [SetUp, sketchIdStep, optStrTruthy, hsk, hse, ht, hmiss]
    · obtain ⟨n, hn⟩ := Option.isSome_iff_exists.mp (hparse s hsk hse)
      simp [SetUp, sketchIdStep, optStrTruthy, hsk, hse, hn, hmiss]

/-- Claim C1, witness: the amended theorem applied to a configuration with
an explicit sketch identifier `"42"` and only the end timestamp present. -/
theorem C1_witness :
    SetUp 1 { sketch_id := some "42", start_datetime := none,
              end_datetime := some dtJan2, output_format := "csv" } =
      SetUpResult.preNetworkFatal FatalMsg.datetimeMissing :=
  C1_setup_rejects_any_missing_datetime 1 _
    (fun _ => one_ne_zero)
    (fun s hs _ => by cases hs; rfl)
    (Or.inl rfl)

/-! ## C2: output-format validation at setup -/

/-- Claim C2, counterexample: the tag `"table"` belongs to the enumeration
`{csv, json, jsonl, table}` the claim names, yet `SetUp` rejects it with
the fatal output-format error — the enumeration the source checks against
(timesketch.py line 19) is `{csv, json, jsonl, pandas}`, not
`{csv, json, jsonl, table}`. -/
theorem C2_counterexample :
    ("table" ∈ (["csv", "json", "jsonl", "table"] : List String)) ∧
    SetUp 1 { sketch_id := some "42", start_datetime := some dtJan1,
              end_datetime := some dtJan2, output_format := "table" } =
      SetUpResult.preNetworkFatal FatalMsg.outputFormatInvalid := by
  constructor
  · simp
  · rfl

/-- Claim C2 (amended): whenever sketch-identifier resolution succeeds and
both timestamps are present, `SetUp` fails with the fatal output-format
error exactly when the output-format tag lies outside the fixed
enumeration `{csv, json, jsonl, pandas}`; the rejection is a pre-network
outcome, so it precedes any network call or query execution. -/
theorem C2_output_format_checked_at_setup (tid : Nat) (a : SetUpArgs)
    (hticket : optStrTruthy a.sketch_id = false → tid ≠ 0)
    (hparse : ∀ s, a.sketch_id = some s → ¬(s = "") →
      (pyIntOfString s).isSome = true)
    (hstart : a.start_datetime.isSome = true)
    (hend : a.end_datetime.isSome = true) :
    SetUp tid a = SetUpResult.preNetworkFatal FatalMsg.outputFormatInvalid ↔
      a.output_format ∉ VALID_OUTPUT_FORMATS := by
  have hpresent : (a.start_datetime.isNone || a.end_datetime.isNone) = false := by
    simp [Option.isNone_iff_eq_none] at *
    exact ⟨by cases h : a.start_datetime <;> simp_all,
           by cases h : a.end_datetime <;> simp_all⟩
  unfold SetUp
  cases hsk : a.sketch_id with
  | none =>
    have ht := hticket (by simp [optStrTruthy, hsk])
    by_cases hf : a.output_format ∈ VALID_OUTPUT_FORMATS <;>
      simp [SetUp, sketchIdStep, optStrTruthy, hsk, ht, hpresent, hf]
  | some s =>
    by_cases hse : s = ""
    · have ht := hticket (by simp [SetUp, sketchIdStep, optStrTruthy, hsk, hse])
      by_cases hf : a.output_format ∈ VALID_OUTPUT_FORMATS <;>
        simp [SetUp, sketchIdStep, optStrTruthy, hsk, hse, ht, hpresent, hf]
    · obtain ⟨n, hn⟩ := Option.isSome_iff_exists.mp (hparse s hsk hse)
      by_cases hf : a.output_format ∈ VALID_OUTPUT_FORMATS <;>
        simp [SetUp, sketchIdStep, optStrTruthy, hsk, hse, hn, hpresent, hf]

/-- Claim C2, witness: the amended theorem applied at the spec's own
example tag `"xml"`, which is rejected with the fatal output-format error
before any network call. -/
theorem C2_witness :
    ("xml" ∉ VALID_OUTPUT_FORMATS) ∧
    SetUp 1 { sketch_id := some "42", start_datetime := some dtJan1,
              end_datetime := some dtJan2, output_format := "xml" } =
      SetUpResult.preNetworkFatal FatalMsg.outputFormatInvalid :=
  ⟨by simp [VALID_OUTPUT_FORMATS],
   (C2_output_format_checked_at_setup 1
      { sketch_id := some "42", start_datetime := some dtJan1,
        end_datetime := some dtJan2, output_format := "xml" }
      (fun _ => one_ne_zero)
      (fun s hs _ => by cases hs; rfl)
      rfl rfl).mpr (by simp [VALID_OUTPUT_FORMATS])⟩

/-! ## C3: absence of a start ≤ end validation -/

/-- A `SetUp` argument list with the two timestamps out of order: the
start timestamp lies one day AFTER the end timestamp. -/
def C3badArgs : SetUpArgs :=
  { sketch_id := some "42", start_datetime := some dtJan2,
    end_datetime := some dtJan1, output_format := "csv" }

/-- Claim C3, counterexample: with start `2023-01-02` strictly after end
`2023-01-01`, `SetUp` raises no error at all — it proceeds past every
validation — and query construction is reached, producing a date-range
chip with its start bound after its end bound.  No start ≤ end check
exists anywhere in timesketch.py lines 118-129. -/
theorem C3_counterexample :
    dtLe dtJan2 dtJan1 = false ∧
    SetUp 1 C3badArgs =
      SetUpResult.proceed (afterNetworkAssignments 42 C3badArgs) ∧
    ((afterNetworkAssignments 42 C3badArgs).map
        (fun cfg => dateRangeChips (buildSearchQuery cfg))) =
      some [(strftimeFixed dtJan2, strftimeFixed dtJan1)] := by
  refine ⟨by decide, by rfl, by rfl⟩

/-- Claim C3 (amended): setup validates only the joint presence of the
two timestamps, not their order.  Every configuration with a valid
explicit sketch identifier, both timestamps present and a valid output
format passes `SetUp` — with no hypothesis on the timestamp order — and
the resulting configuration carries the start and end timestamps
unchanged into query construction, so start > end also reaches it. -/
theorem C3_setup_skips_order_validation (tid : Nat) (a : SetUpArgs)
    (s : String) (n : Int)
    (hsk : a.sketch_id = some s) (hse : ¬(s = ""))
    (hn : pyIntOfString s = some n)
    (hstart : a.start_datetime.isSome = true)
    (hend : a.end_datetime.isSome = true)
    (hfmt : a.output_format ∈ VALID_OUTPUT_FORMATS) :
    SetUp tid a = SetUpResult.proceed (afterNetworkAssignments n a) ∧
    ∀ cfg, afterNetworkAssignments n a = some cfg →
      cfg.start_datetime = a.start_datetime ∧
      cfg.end_datetime = a.end_datetime := by
  constructor
  · have hpresent : (a.start_datetime.isNone || a.end_datetime.isNone) = false := by
      cases h1 : a.start_datetime <;> cases h2 : a.end_datetime <;> simp_all
    unfold SetUp
    simp [SetUp, sketchIdStep, optStrTruthy, hsk, hse, hn, hpresent, hfmt]
  · intro cfg hcfg
    cases hpi : parseIndices a.indices with
    | none => simp [afterNetworkAssignments, hpi] at hcfg
    | some idxs =>
      simp only [afterNetworkAssignments, hpi, Option.some_inj] at hcfg
      cases hcfg
      exact ⟨rfl, rfl⟩

/-- Claim C3, witness: the amended theorem applied to `C3badArgs`, whose
start timestamp is strictly after its end timestamp. -/
theorem C3_witness :
    SetUp 1 C3badArgs =
      SetUpResult.proceed (afterNetworkAssignments 42 C3badArgs) ∧
    ∀ cfg, afterNetworkAssignments 42 C3badArgs = some cfg →
      cfg.start_datetime = C3badArgs.start_datetime ∧
      cfg.end_datetime = C3badArgs.end_datetime :=
  C3_setup_skips_order_validation 1 C3badArgs "42" 42
    rfl (by decide) rfl rfl rfl (by simp [VALID_OUTPUT_FORMATS, C3badArgs])

/-! ## C4: dropping the backend-internal columns -/

/-- Claim C4 (confirmed): when internal-column inclusion is not
requested, the shaping step keeps exactly the columns outside the five
named backend-internal columns — so precisely the internal columns that
are present get removed — and on a well-formed table containing none of
the five columns the step is the identity, not an error. -/
theorem C4_internal_columns_dropped (cfg : ModuleConfig) (df : DataFrame)
    (hinc : cfg.include_internal_columns = false) :
    (∀ c, c ∈ (shapedTable cfg df).columns ↔
      (c ∈ df.columns ∧ c ∉ internalColumns)) ∧
    ((∀ c ∈ df.columns, c ∉ internalColumns) →
      (∀ r ∈ df.rows, r.length = df.columns.length) →
      shapedTable cfg df = df) := by
  have hshape : shapedTable cfg df = dropColumns df internalColumns := by
    simp [shapedTable, hinc]
  constructor
  · intro c
    rw [hshape]
    simp [dropColumns, List.mem_filter, List.contains_iff_exists_mem_beq,
      beq_iff_eq]
  · intro hnone halign
    rw [hshape]
    have hmemf : ∀ c ∈ df.columns,
        (!(internalColumns.contains c)) = true := by
      intro c hc
      simpa [List.contains_iff_exists_mem_beq, beq_iff_eq] using hnone c hc
    have hcols :
        df.columns.filter (fun c => !(internalColumns.contains c)) =
          df.columns :=
      List.filter_eq_self.mpr hmemf
    have hrows : ∀ r ∈ df.rows,
        (((df.columns.zip r).filter
            (fun p => !(internalColumns.contains p.1))).map Prod.snd) = r := by
      intro r hr
      have hfz : (df.columns.zip r).filter
          (fun p => !(internalColumns.contains p.1)) = df.columns.zip r := by
        apply List.filter_eq_self.mpr
        intro p hp
        exact hmemf p.1 (List.of_mem_zip hp).1
      rw [hfz]
      exact List.map_snd_zip _ _ (le_of_eq (halign r hr))
    cases df with
    | mk cols rows =>
      simp only [dropColumns] at *
      refine congrArg₂ DataFrame.mk hcols ?_
      calc rows.map _ = rows.map id := List.map_congr_left hrows
        _ = rows := List.map_id rows

/-- Claim C4, witness: a table holding two of the five internal columns
loses exactly those two, and a table holding none of them is returned
unchanged. -/
theorem C4_witness :
    (("_id" ∈ (shapedTable
        { sketch_id := 42, query_string := "*", start_datetime := some dtJan1,
          end_datetime := some dtJan2, return_fields := "*",
          output_format := "csv", include_internal_columns := false,
          labels := [], indices := [], search_name := "",
          search_description := "" }
        ⟨["_id", "message", "_type"], [["1", "hello", "t"]]⟩).columns ↔
      ("_id" ∈ (["_id", "message", "_type"] : List String) ∧
        "_id" ∉ internalColumns))) ∧
    shapedTable
        { sketch_id := 42, query_string := "*", start_datetime := some dtJan1,
          end_datetime := some dtJan2, return_fields := "*",
          output_format := "csv", include_internal_columns := false,
          labels := [], indices := [], search_name := "",
          search_description := "" }
        ⟨["message", "user"], [["hello", "alice"]]⟩ =
      ⟨["message", "user"], [["hello", "alice"]]⟩ :=
  ⟨(C4_internal_columns_dropped _
      ⟨["_id", "message", "_type"], [["1", "hello", "t"]]⟩ rfl).1 "_id",
   (C4_internal_columns_dropped _
      ⟨["message", "user"], [["hello", "alice"]]⟩ rfl).2
     (by decide) (by decide)⟩

/-! ## C5: label-chip dispatch and one chip per label entry -/

/-- A sample post-setup configuration: sketch 42, query `"error"`, both
timestamps present, format `csv`, three labels covering the two
special-cased values and a literal one. -/
def sampleCfg : ModuleConfig :=
  { sketch_id := 42, query_string := "error", start_datetime := some dtJan1,
    end_datetime := some dtJan2, return_fields := "*",
    output_format := "csv", include_internal_columns := false,
    labels := ["star", "comment", "suspicious"], indices := [],
    search_name := "", search_description := "" }

/-- Claim C5 (confirmed): the constructed query carries exactly one label
chip per label-list entry, in order; `"star"` and `"comment"` entries
produce the dedicated built-in star/comment filters and every other
entry a literal label restriction; and under the conjunctive chip
semantics the composite match is the conjunction of the (optional)
range-chip match with one conjunct per label entry. -/
theorem C5_label_chips (cfg : ModuleConfig) :
    labelChips (buildSearchQuery cfg) =
      cfg.labels.map (fun l =>
        if l = "star" then LabelKind.star
        else if l = "comment" then LabelKind.comment
        else LabelKind.literal l) ∧
    (labelChips (buildSearchQuery cfg)).length = cfg.labels.length ∧
    ∀ m : Chip → Bool,
      chipsMatch m (buildSearchQuery cfg).chips =
        ((match cfg.start_datetime, cfg.end_datetime with
          | some s, some e =>
            m (Chip.dateRange (strftimeFixed s) (strftimeFixed e))
          | _, _ => true) &&
         cfg.labels.all (fun l => m (labelChipOf l))) := by
  have hkey : ∀ ls : List String,
      (ls.map labelChipOf).filterMap (fun c =>
        match c with
        | Chip.dateRange _ _ => none
        | Chip.label k => some k) =
      ls.map (fun l =>
        if l = "star" then LabelKind.star
        else if l = "comment" then LabelKind.comment
        else LabelKind.literal l) := by
    intro ls
    induction ls with
    | nil => rfl
    | cons l rest ih =>
      by_cases h1 : l = "star"
      · simp [labelChipOf, h1, ih]
      · by_cases h2 : l = "comment" <;> simp [labelChipOf, h1, h2, ih]
  have hchips : labelChips (buildSearchQuery cfg) =
      cfg.labels.map (fun l =>
        if l = "star" then LabelKind.star
        else if l = "comment" then LabelKind.comment
        else LabelKind.literal l) := by
    unfold labelChips buildSearchQuery
    cases hs : cfg.start_datetime with
    | none => simpa [List.filterMap_append] using hkey cfg.labels
    | some s =>
      cases he : cfg.end_datetime with
      | none => simpa [List.filterMap_append] using hkey cfg.labels
      | some e => simpa [List.filterMap_append] using hkey cfg.labels
  refine ⟨hchips, ?_, ?_⟩
  · rw [hchips]; simp
  · intro m
    have hallmap : ∀ ls : List String,
        (ls.map labelChipOf).all m = ls.all (fun l => m (labelChipOf l)) := by
      intro ls
      induction ls with
      | nil => rfl
      | cons l rest ih => simp [ih]
    unfold chipsMatch buildSearchQuery
    cases hs : cfg.start_datetime with
    | none => simp [List.all_append, hallmap]
    | some s =>
      cases he : cfg.end_datetime with
      | none => simp [List.all_append, hallmap]
      | some e => simp [List.all_append, hallmap]

/-- Claim C5, witness: on `sampleCfg`, whose label list is
`["star", "comment", "suspicious"]`, the query carries exactly the three
label chips star-filter, comment-filter, literal `"suspicious"`. -/
theorem C5_witness :
    labelChips (buildSearchQuery sampleCfg) =
      [LabelKind.star, LabelKind.comment, LabelKind.literal "suspicious"] ∧
    (labelChips (buildSearchQuery sampleCfg)).length = 3 :=
  ⟨(C5_label_chips sampleCfg).1.trans (by decide),
   ((C5_label_chips sampleCfg).2.1).trans (by decide)⟩

/-! ## C6: the single inclusive time-range chip and its fixed encoding -/

/-- The decimal rendering of `n` occupies at most `w` characters when
`n < 10 ^ w` and `w ≥ 1`. -/
theorem natDecimal_length_le (n w : Nat) (hw : 1 ≤ w) (h : n < 10 ^ w) :
    (natDecimal n).length ≤ w :=
  Nat.repr_length n w hw h

/-- Left zero-padding to width `w` yields exactly width `w` on inputs of
length at most `w`. -/
theorem padZero_length (w : Nat) (s : String) (h : s.length ≤ w) :
    (padZero w s).length = w := by
  unfold padZero
  by_cases hlt : s.length < w
  · simp only [hlt, if_true, String.length_append, String.length_mk,
      List.length_replicate]
    omega
  · simp only [hlt, if_false]
    omega

/-- Each `strftime` field of width `w` renders as exactly `w` characters
when its value is below `10 ^ w`. -/
theorem pad_length (w n : Nat) (hw : 1 ≤ w) (h : n < 10 ^ w) :
    (pad w n).length = w :=
  padZero_length w _ (natDecimal_length_le n w hw h)

/-- On the field bounds the Python `datetime` type guarantees, the fixed
encoding `%Y-%m-%dT%H:%M:%S.%f` renders as exactly 26 characters:
`YYYY-MM-DDTHH:MM:SS.ffffff`. -/
theorem strftimeFixed_length (dt : Datetime) (h : dt.validFields) :
    (strftimeFixed dt).length = 26 := by
  obtain ⟨h1, h2, h3, h4, h5, h6, h7, h8, h9, h10⟩ := h
  have p1 : (pad 4 dt.year).length = 4 :=
    pad_length 4 _ (by norm_num) (by norm_num; omega)
  have p2 : (pad 2 dt.month).length = 2 :=
    pad_length 2 _ (by norm_num) (by norm_num; omega)
  have p3 : (pad 2 dt.day).length = 2 :=
    pad_length 2 _ (by norm_num) (by norm_num; omega)
  have p4 : (pad 2 dt.hour).length = 2 :=
    pad_length 2 _ (by norm_num) (by norm_num; omega)
  have p5 : (pad 2 dt.minute).length = 2 :=
    pad_length 2 _ (by norm_num) (by norm_num; omega)
  have p6 : (pad 2 dt.second).length = 2 :=
    pad_length 2 _ (by norm_num) (by norm_num; omega)
  have p7 : (pad 6 dt.microsecond).length = 6 :=
    pad_length 6 _ (by norm_num) (by norm_num; omega)
  have hdash : ("-" : String).length = 1 := rfl
  have hT : ("T" : String).length = 1 := rfl
  have hcolon : (":" : String).length = 1 := rfl
  have hdot : ("." : String).length = 1 := rfl
  simp [strftimeFixed, String.length_append, p1, p2, p3, p4, p5, p6, p7,
    hdash, hT, hcolon, hdot]

/-- Claim C6 (confirmed): whenever both timestamps are present in the
configuration, the built query carries exactly one date-range chip; its
two bounds are the `%Y-%m-%dT%H:%M:%S.%f` encodings of the two
timestamps (26 characters `YYYY-MM-DDTHH:MM:SS.ffffff` on valid datetime
fields); and under the chip's modelled semantics both encoded bounds
themselves satisfy the restriction, i.e. it is inclusive of both. -/
theorem C6_single_inclusive_range_chip (cfg : ModuleConfig)
    (s e : Datetime)
    (hs : cfg.start_datetime = some s) (he : cfg.end_datetime = some e) :
    dateRangeChips (buildSearchQuery cfg) =
      [(strftimeFixed s, strftimeFixed e)] ∧
    (s.validFields → (strftimeFixed s).length = 26) ∧
    (e.validFields → (strftimeFixed e).length = 26) ∧
    (strLe (strftimeFixed s) (strftimeFixed e) = true →
      dateRangeMatches (strftimeFixed s) (strftimeFixed e)
        (strftimeFixed s) = true ∧
      dateRangeMatches (strftimeFixed s) (strftimeFixed e)
        (strftimeFixed e) = true) := by
  refine ⟨?_, fun hv => strftimeFixed_length s hv,
    fun hv => strftimeFixed_length e hv, fun hle => ?_⟩
  · have hlabels : ∀ ls : List String,
        (ls.map labelChipOf).filterMap (fun c =>
          match c with
          | Chip.dateRange a b => some (a, b)
          | Chip.label _ => none) = [] := by
      intro ls
      induction ls with
      | nil => rfl
      | cons l rest ih =>
        by_cases hl1 : l = "star"
        · simp [labelChipOf, hl1, ih]
        · by_cases hl2 : l = "comment" <;> simp [labelChipOf, hl1, hl2, ih]
    unfold dateRangeChips buildSearchQuery
    rw [hs, he]
    simp [List.filterMap_append, hlabels]
  · exact ⟨by simp [dateRangeMatches, hle, strLe_refl],
      by simp [dateRangeMatches, hle, strLe_refl]⟩

/-- Claim C6, witness: on `sampleCfg` (start `2023-01-01T00:00:00`, end
`2023-01-02T00:00:00`) the query carries exactly the one range chip with
the two 26-character encoded bounds, and both bounds satisfy the chip. -/
theorem C6_witness :
    dateRangeChips (buildSearchQuery sampleCfg) =
      [("2023-01-01T00:00:00.000000", "2023-01-02T00:00:00.000000")] ∧
    (strftimeFixed dtJan1).length = 26 ∧
    dateRangeMatches (strftimeFixed dtJan1) (strftimeFixed dtJan2)
      (strftimeFixed dtJan2) = true := by
  have h := C6_single_inclusive_range_chip sampleCfg dtJan1 dtJan2 rfl rfl
  refine ⟨h.1.trans (by rfl), h.2.1 (by decide), (h.2.2.2 (by decide)).2⟩

/-! ## C7: empty result tables are a non-error terminal state -/

/-- Claim C7 (confirmed): for every configuration, a result table with
zero rows makes `Process` terminate successfully having produced no
artifact — the empty result is success, distinct from the fatal
outcome. -/
theorem C7_empty_result_is_success (cfg : ModuleConfig) (df : DataFrame)
    (h : df.rows = []) :
    Process cfg df = ProcessResult.success [] := by
  unfold Process
  simp [DataFrame.empty, h]

/-- Claim C7, witness: a zero-row table with columns present produces no
artifact and succeeds. -/
theorem C7_witness :
    Process sampleCfg ⟨["message", "user"], []⟩ =
      ProcessResult.success [] :=
  C7_empty_result_is_success sampleCfg ⟨["message", "user"], []⟩ rfl

/-! ## C8: serialization is a deterministic function of shaped table and
format tag -/

/-- Claim C8 (confirmed): the serialized file content produced by the
Result Shaper depends only on the raw table, the output-format tag and
the internal-column flag — two runs whose configurations agree on tag
and flag yield byte-identical content on the same raw table (the unique
file path being outside the model) — and for each of the three file
formats the content is exactly the corresponding serializer applied to
the shaped table, hence running the shaper twice with one same
configuration is trivially byte-identical. -/
theorem C8_serialization_deterministic (cfg1 cfg2 : ModuleConfig)
    (df : DataFrame)
    (hfmt : cfg1.output_format = cfg2.output_format)
    (hinc : cfg1.include_internal_columns = cfg2.include_internal_columns) :
    serializedContent cfg1 df = serializedContent cfg2 df ∧
    (cfg1.output_format = "csv" →
      serializedContent cfg1 df = some (toCsv (shapedTable cfg1 df))) ∧
    (cfg1.output_format = "json" →
      serializedContent cfg1 df = some (toJsonRecords (shapedTable cfg1 df))) ∧
    (cfg1.output_format = "jsonl" →
      serializedContent cfg1 df = some (toJsonLines (shapedTable cfg1 df))) := by
  have hshape : shapedTable cfg1 df = shapedTable cfg2 df := by
    unfold shapedTable
    rw [hinc]
  refine ⟨?_, ?_, ?_, ?_⟩
  · unfold serializedContent outputSearchResults
    rw [← hfmt, ← hshape]
    by_cases h1 : cfg1.output_format = "pandas"
    · simp [h1]
    · by_cases h2 : cfg1.output_format = "csv"
      · simp [h1, h2]
      · by_cases h3 : cfg1.output_format = "json"
        · simp [h1, h2, h3]
        · by_cases h4 : cfg1.output_format = "jsonl" <;> simp [h1, h2, h3, h4]
  · intro h
    unfold serializedContent outputSearchResults
    rw [h]
    rfl
  · intro h
    unfold serializedContent outputSearchResults
    rw [h]
    rfl
  · intro h
    unfold serializedContent outputSearchResults
    rw [h]
    rfl

/-- Claim C8, witness: two configurations differing in search name and
description but agreeing on format `csv` and the internal-column flag
serialize the same one-row table to the same bytes, and that content is
the CSV serialization of the shaped table. -/
theorem C8_witness :
    serializedContent sampleCfg ⟨["_id", "message"], [["1", "hello"]]⟩ =
      serializedContent
        { sampleCfg with search_name := "other", search_description := "d" }
        ⟨["_id", "message"], [["1", "hello"]]⟩ ∧
    serializedContent sampleCfg ⟨["_id", "message"], [["1", "hello"]]⟩ =
      some "message\nhello\n" :=
  ⟨(C8_serialization_deterministic sampleCfg
      { sampleCfg with search_name := "other", search_description := "d" }
      ⟨["_id", "message"], [["1", "hello"]]⟩ rfl rfl).1,
   ((C8_serialization_deterministic sampleCfg sampleCfg
      ⟨["_id", "message"], [["1", "hello"]]⟩ rfl rfl).2.1 rfl).trans
     (by rfl)⟩

/-! ## C9: the write-time format-error branch is dead after setup -/

/-- An error returned by the sketch-identifier step is a pre-network
abort, never a `proceed` outcome. -/
theorem sketchIdStep_error_ne_proceed (tid : Nat) (a : SetUpArgs)
    (r : SetUpResult) (h : sketchIdStep tid a = Except.error r) :
    ∀ c, r ≠ SetUpResult.proceed c := by
  intro c
  unfold sketchIdStep at h
  by_cases hsk : optStrTruthy a.sketch_id = false
  · rw [if_pos hsk] at h
    by_cases ht : tid = 0
    · rw [if_pos ht] at h
      cases h
      simp
    · rw [if_neg ht] at h
      cases h
  · rw [if_neg hsk] at h
    cases hp : pyIntOfString (a.sketch_id.getD "") with
    | none =>
      rw [hp] at h
      cases h
      simp
    | some n =>
      rw [hp] at h
      cases h

/-- Inversion of a completed setup: `SetUp` can only return `proceed`
when the output-format tag passed the membership check against the valid
set, and the payload is the post-network assignment of the resolved
identifier. -/
theorem SetUp_proceed_inv (tid : Nat) (a : SetUpArgs)
    (c : Option ModuleConfig)
    (h : SetUp tid a = SetUpResult.proceed c) :
    a.output_format ∈ VALID_OUTPUT_FORMATS ∧
    ∃ sid, sketchIdStep tid a = Except.ok sid ∧
      c = afterNetworkAssignments sid a := by
  unfold SetUp at h
  cases hid : sketchIdStep tid a with
  | error r =>
    rw [hid] at h
    exact absurd h (sketchIdStep_error_ne_proceed tid a r hid c)
  | ok sid =>
    rw [hid] at h
    by_cases h1 : (a.start_datetime.isNone || a.end_datetime.isNone) = true
    · simp [h1] at h
    · by_cases h2 : a.output_format ∉ VALID_OUTPUT_FORMATS
      · simp [h1, h2] at h
      · dsimp only at h
        rw [if_neg h1, if_neg h2] at h
        cases h
        exact ⟨not_not.mp h2, sid, rfl, rfl⟩

/-- The configuration a completed setup hands on carries the
output-format argument unchanged. -/
theorem afterNetwork_output_format (sid : Int) (a : SetUpArgs)
    (cfg : ModuleConfig) (h : afterNetworkAssignments sid a = some cfg) :
    cfg.output_format = a.output_format := by
  cases hpi : parseIndices a.indices with
  | none => simp [afterNetworkAssignments, hpi] at h
  | some idxs =>
    simp only [afterNetworkAssignments, hpi, Option.some_inj] at h
    cases h
    rfl

/-- Claim C9 (confirmed): under the precondition that `SetUp` completed
— so the output-format tag passed the setup-time membership check — the
write-time `'Unexpected output format'` fatal branch of
`_OutputSearchResults` is unreachable for every result table. -/
theorem C9_write_time_format_error_unreachable (tid : Nat)
    (a : SetUpArgs) (cfg : ModuleConfig) (df : DataFrame)
    (h : SetUp tid a = SetUpResult.proceed (some cfg)) :
    outputSearchResults cfg df ≠ OutputResult.unexpectedFormatFatal := by
  obtain ⟨hfmt, sid, hok, hc⟩ := SetUp_proceed_inv tid a (some cfg) h
  have hcfgfmt : cfg.output_format = a.output_format :=
    afterNetwork_output_format sid a cfg hc.symm
  have hmem : cfg.output_format = "csv" ∨ cfg.output_format = "json" ∨
      cfg.output_format = "jsonl" ∨ cfg.output_format = "pandas" := by
    rw [hcfgfmt]
    simpa [VALID_OUTPUT_FORMATS] using hfmt
  rcases hmem with h1 | h1 | h1 | h1 <;> simp [outputSearchResults, h1]

/-- Claim C9, witness: a concrete completed setup with format `"csv"`,
whose resulting configuration never reaches the write-time fatal
branch on a concrete one-row table. -/
theorem C9_witness :
    outputSearchResults
      { sketch_id := 42, query_string := "*", start_datetime := some dtJan1,
        end_datetime := some dtJan2, return_fields := "*",
        output_format := "csv", include_internal_columns := false,
        labels := [], indices := [], search_name := "",
        search_description := "" }
      ⟨["message"], [["hi"]]⟩ ≠ OutputResult.unexpectedFormatFatal :=
  C9_write_time_format_error_unreachable 1
    { sketch_id := some "42", start_datetime := some dtJan1,
      end_datetime := some dtJan2, output_format := "csv" }
    _ ⟨["message"], [["hi"]]⟩ (by rfl)

/-! ## C10: a malformed explicit sketch identifier escapes as an
unhandled exception -/

/-- Claim C10 (confirmed): the explicitly supplied, non-empty sketch
identifier `"abc"` does not parse as a decimal integer, and `SetUp`
aborts with the unhandled `ValueError` of `int(sketch_id)` — an outcome
distinct from every fatal `ModuleError` outcome, so the module's fatal
setup-error path does not cover this malformed identifier. -/
theorem C10_malformed_sketch_id_raises_valueerror :
    ("abc" ≠ "") ∧
    pyIntOfString "abc" = none ∧
    SetUp 1 { sketch_id := some "abc", start_datetime := some dtJan1,
              end_datetime := some dtJan2, output_format := "csv" } =
      SetUpResult.preNetworkValueError ∧
    (∀ m : FatalMsg,
      SetUpResult.preNetworkValueError ≠ SetUpResult.preNetworkFatal m) := by
  refine ⟨by decide, by rfl, by rfl, fun m => by simp⟩

end Timesketch
